import Mathlib

/-!
Verification of the FlyBy terminal UI for Concourse CI.

Shallow embedding of the Go sources:
* `internal/concourse` — the external `fly` CLI adapter (`TriggerJobWithOutput`,
  `RerunBuildWithOutput`, `CheckResourceWithOutput`, `IsAuthError`);
* `internal/config` — the `~/.flyrc` target store;
* `internal/tui` — the per-view state machines (pipelines, jobs, resources,
  builds, targets, auth) and the router (`Model.Update`).

Modelling conventions:
* A subprocess invocation's outcome is an explicit `ExecResult` input
  (the tool could not start / ran and exited non-zero / ran and exited zero,
  with the combined output text), matching the three branches that Go's
  `exec.Cmd.CombinedOutput` error handling distinguishes.
* Go `error` values are modelled as `Option String` (the error text).
* Go `int` fields (cursors, offsets) are modelled as `Int`.
* Go string lowering/containment (`strings.ToLower`, `strings.Contains`) is
  modelled rune-wise over `List Char`; the sources only match ASCII markers,
  for which `Char.toLower` agrees with Go's Unicode lowering.
* Go slice indexing `l[i]` (which panics out of range) is modelled as `listAt`
  with a default element; the theorems that depend on an index carry the
  in-bounds hypothesis under which the two agree.
-/

namespace FlyBy

/-! ## String primitives (models of `strings.Contains`, `strings.ToLower`) -/

/-- `charsPrefix n h` is true when the char list `n` is a prefix of `h`
(model of the prefix test underlying `strings.Contains`). -/
def charsPrefix : List Char → List Char → Bool
  | [], _ => true
  | _ :: _, [] => false
  | a :: as, b :: bs => a = b && charsPrefix as bs

/-- `charsContains n h` is true when `n` occurs as a contiguous infix of `h`. -/
def charsContains (n : List Char) : List Char → Bool
  | [] => charsPrefix n []
  | c :: t => charsPrefix n (c :: t) || charsContains n t

/-- Model of Go `strings.Contains hay needle`. -/
def strContains (hay needle : String) : Bool :=
  charsContains needle.toList hay.toList

/-- Model of Go `strings.ToLower` (rune-wise; agrees with Go on ASCII,
which is all the sources ever match against). -/
def lowerStr (s : String) : String :=
  ⟨s.data.map Char.toLower⟩

/-- Spec-side notion: `s` contains `marker` case-insensitively, i.e. some
contiguous run of characters of `s` lowercases to `marker`. -/
def ContainsCI (s marker : String) : Prop :=
  ∃ p mid t, s.toList = p ++ mid ++ t ∧ mid.map Char.toLower = marker.toList

/-! ## `internal/concourse`: the external fly CLI adapter -/

/-- Outcome of invoking the external `fly` tool, as distinguished by the Go
code's handling of `cmd.CombinedOutput()`:
`startFailure` = the error is not an `*exec.ExitError` (tool could not run),
`exitNonZero` = `*exec.ExitError` (tool ran, non-zero exit),
`exitZero` = no error (tool ran, exit zero).
Each carries the combined stdout+stderr text (and the error text for
`startFailure`). -/
inductive ExecResult where
  | startFailure (combinedOutput errText : String)
  | exitNonZero (combinedOutput : String)
  | exitZero (combinedOutput : String)
deriving DecidableEq

/-- The `(success bool, output string, err error)` triple the mutating
operations return. -/
structure CmdResult where
  success : Bool
  output : String
  executionError : Option String
deriving DecidableEq

/-- `Client.TriggerJobWithOutput` (the result depends only on the subprocess
outcome; pipeline/job only form the command line). -/
def TriggerJobWithOutput (r : ExecResult) : CmdResult :=
  match r with
  | .startFailure out err => ⟨false, out.trim, some err⟩
  | .exitNonZero out => ⟨false, out.trim, none⟩
  | .exitZero out =>
      let outputStr := out.trim
      ⟨strContains (lowerStr outputStr) "started", outputStr, none⟩

/-- `Client.RerunBuildWithOutput`. -/
def RerunBuildWithOutput (r : ExecResult) : CmdResult :=
  match r with
  | .startFailure out err => ⟨false, out.trim, some err⟩
  | .exitNonZero out => ⟨false, out.trim, none⟩
  | .exitZero out =>
      let outputStr := out.trim
      ⟨strContains (lowerStr outputStr) "started", outputStr, none⟩

/-- `Client.CheckResourceWithOutput`. -/
def CheckResourceWithOutput (r : ExecResult) : CmdResult :=
  match r with
  | .startFailure out err => ⟨false, out.trim, some err⟩
  | .exitNonZero out => ⟨false, out.trim, none⟩
  | .exitZero out =>
      let outputStr := out.trim
      ⟨strContains (lowerStr outputStr) "succeeded", outputStr, none⟩

/-- `concourse.IsAuthError`. -/
def IsAuthError (err : Option String) : Bool :=
  match err with
  | none => false
  | some e =>
      let errorStr := lowerStr e
      strContains errorStr "not authorized" ||
      strContains errorStr "not logged in" ||
      strContains errorStr "unauthorized" ||
      strContains errorStr "authentication"

/-! ## `internal/config`: the `~/.flyrc` target store -/

/-- `config.Token`. -/
structure Token where
  type : String
  value : String
deriving DecidableEq, Inhabited

/-- `config.Target`. -/
structure Target where
  name : String
  api : String
  team : String
  token : Option Token
  insecure : Bool
  caCert : String
  clientCert : String
  clientKey : String
deriving DecidableEq, Inhabited

/-- `Target.GetURL`. -/
def Target.GetURL (t : Target) : String := t.api

/-- The in-memory `FlyConfig.Targets` map, modelled as an association list
(Go map iteration order is modelled as list order). -/
def ConfigStore := List (String × Target)

instance : DecidableEq ConfigStore := by
  unfold ConfigStore
  infer_instance

/-- `ConfigManager.GetTarget` (map lookup). -/
def GetTarget (store : ConfigStore) (name : String) : Option Target :=
  (store.find? (fun p => p.1 = name)).map (·.2)

/-- `ConfigManager.RemoveTarget`: deletes the entry when present, errors
(second component `false`) when absent. -/
def RemoveTarget (store : ConfigStore) (name : String) : ConfigStore × Bool :=
  if store.any (fun p => p.1 = name) then
    (store.filter (fun p => ¬ p.1 = name), true)
  else
    (store, false)

/-! ## `internal/concourse`: data records -/

/-- `concourse.Pipeline`. -/
structure Pipeline where
  id : Int
  name : String
  paused : Bool
  public : Bool
  archived : Bool
  teamName : String
  lastUpdatedUnix : Int
deriving DecidableEq, Inhabited

/-- `concourse.Build`. -/
structure Build where
  id : Int
  teamName : String
  name : String
  status : String
  jobName : String
  apiURL : String
  startTimeUnix : Int
  endTimeUnix : Int
  pipelineID : Int
  pipelineName : String
deriving DecidableEq, Inhabited

/-- `concourse.Job`. -/
structure Job where
  id : Int
  name : String
  pipelineName : String
  pipelineID : Int
  teamName : String
  nextBuild : Build
  finishedBuild : Build
deriving DecidableEq, Inhabited

/-- `concourse.Metadata`. -/
structure Metadata where
  name : String
  value : String
deriving DecidableEq, Inhabited

/-- `concourse.Resource` (the `version` map's opaque values are modelled as
strings; no code under verification inspects them). -/
structure Resource where
  name : String
  pipelineName : String
  teamName : String
  type : String
  lastCheckedUnix : Int
  version : List (String × String)
  metadata : List Metadata
deriving DecidableEq, Inhabited

/-! ## Small helpers shared by the view models -/

/-- Go slice indexing `l[i]` for an index known (or assumed) in bounds;
out-of-range access, which panics in Go, yields `default` here. -/
def listAt {α : Type} [Inhabited α] (l : List α) (i : Int) : α :=
  l.getD i.toNat default

/-- Numeric value of a digit list (most significant first). -/
def digitsVal (cs : List Char) : Nat :=
  cs.foldl (fun a c => a * 10 + (c.toNat - ('0').toNat)) 0

/-- Model of Go `strconv.Atoi`: optional sign followed by one or more ASCII
digits; anything else is an error (`none`). Overflow of Go's `int` is not
modelled (build numbers are tiny). -/
def atoi (s : String) : Option Int :=
  match s.toList with
  | [] => none
  | '+' :: rest =>
      if rest ≠ [] ∧ rest.all Char.isDigit then some (digitsVal rest) else none
  | '-' :: rest =>
      if rest ≠ [] ∧ rest.all Char.isDigit then some (-(digitsVal rest : Int)) else none
  | cs =>
      if cs.all Char.isDigit then some (digitsVal cs) else none

/-- Go byte-slice truncation `s[:len(s)-1]` as used on the search query
(modelled rune-wise). -/
def strDropLast (s : String) : String :=
  ⟨s.data.dropLast⟩

/-! ## `internal/tui/pipelines_view.go` -/

/-- `pipelinesState`. -/
inductive PipelinesState where
  | loading
  | list
deriving DecidableEq, Inhabited

/-- `PipelinesViewModel` (the `*concourse.Client` pointer is modelled by the
target name it wraps, `none` = nil). -/
structure PipelinesViewModel where
  client : Option String
  pipelines : List Pipeline
  filteredPipelines : List Pipeline
  selected : Int
  state : PipelinesState
  err : Option String
  scrollOffset : Int
  maxVisible : Int
  searchQuery : String
  searchMode : Bool
deriving DecidableEq, Inhabited

/-- `NewPipelinesViewModel`. -/
def NewPipelinesViewModel : PipelinesViewModel :=
  { client := none, pipelines := [], filteredPipelines := [], selected := 0,
    state := .list, err := none, scrollOffset := 0, maxVisible := 10,
    searchQuery := "", searchMode := false }

/-- `PipelinesLoadedMsg`. -/
structure PipelinesLoadedMsg where
  pipelines : List Pipeline
  error : Option String
deriving DecidableEq

/-- The commands (`tea.Cmd` values) the pipelines view can emit. -/
inductive PipelinesCmd where
  | none
  | loadPipelines
  | switchToJobs
  | switchToResources
  | togglePipeline (p : Pipeline)
  | openJobs (pipeline : String)
deriving DecidableEq

namespace PipelinesViewModel

/-- Whether a pipeline matches the (already lowered) query: case-insensitive
substring of its name or team name. -/
def matchesQuery (query : String) (p : Pipeline) : Bool :=
  strContains (lowerStr p.name) query || strContains (lowerStr p.teamName) query

/-- `filterPipelines` (pointer-receiver method). -/
def filterPipelines (m : PipelinesViewModel) : PipelinesViewModel :=
  let filtered :=
    if m.searchQuery = "" then m.pipelines
    else m.pipelines.filter (matchesQuery (lowerStr m.searchQuery))
  let m := { m with filteredPipelines := filtered }
  let m :=
    if m.selected ≥ (m.filteredPipelines.length : Int) then
      { m with selected := 0, scrollOffset := 0 }
    else m
  if m.selected < 0 ∧ 0 < m.filteredPipelines.length then
    { m with selected := 0, scrollOffset := 0 }
  else m

/-- `PipelinesViewModel.Update` restricted to the key messages it handles
(`msg.String()` is the key name). -/
def Update (m : PipelinesViewModel) (key : String) :
    PipelinesViewModel × PipelinesCmd :=
  if m.searchMode then
    if key = "enter" then ({ m with searchMode := false }, .none)
    else if key = "esc" then
      (filterPipelines { m with searchMode := false, searchQuery := "" }, .none)
    else if key = "backspace" then
      if 0 < m.searchQuery.length then
        (filterPipelines { m with searchQuery := strDropLast m.searchQuery }, .none)
      else (m, .none)
    else if key = "ctrl+u" then
      (filterPipelines { m with searchQuery := "" }, .none)
    else if key.length = 1 then
      (filterPipelines { m with searchQuery := m.searchQuery ++ key }, .none)
    else (m, .none)
  else
    if key = "f5" then
      if m.client.isSome then ({ m with state := .loading }, .loadPipelines)
      else (m, .none)
    else if key = "up" ∨ key = "k" then
      if 0 < m.selected then
        let s := m.selected - 1
        let off := if s < m.scrollOffset then s else m.scrollOffset
        ({ m with selected := s, scrollOffset := off }, .none)
      else (m, .none)
    else if key = "down" then
      if m.selected < (m.filteredPipelines.length : Int) - 1 then
        let s := m.selected + 1
        let off :=
          if s ≥ m.scrollOffset + m.maxVisible then s - m.maxVisible + 1
          else m.scrollOffset
        ({ m with selected := s, scrollOffset := off }, .none)
      else (m, .none)
    else if key = "j" then
      if m.filteredPipelines ≠ [] then (m, .switchToJobs) else (m, .none)
    else if key = "r" then
      if m.filteredPipelines ≠ [] then (m, .switchToResources) else (m, .none)
    else if key = "p" then
      if m.filteredPipelines ≠ [] then
        (m, .togglePipeline (listAt m.filteredPipelines m.selected))
      else (m, .none)
    else if key = "enter" then
      if m.filteredPipelines ≠ [] then
        (m, .openJobs (listAt m.filteredPipelines m.selected).name)
      else (m, .none)
    else if key = "/" ∨ key = "s" then ({ m with searchMode := true }, .none)
    else (m, .none)

/-- `GetSelectedPipeline`. -/
def GetSelectedPipeline (m : PipelinesViewModel) : String :=
  if m.filteredPipelines = [] ∨ m.selected ≥ (m.filteredPipelines.length : Int) then ""
  else (listAt m.filteredPipelines m.selected).name

/-- `HandlePipelinesLoaded`. -/
def HandlePipelinesLoaded (m : PipelinesViewModel) (msg : PipelinesLoadedMsg) :
    PipelinesViewModel :=
  let m := { m with pipelines := msg.pipelines, err := msg.error, state := .list }
  if msg.error = none then
    filterPipelines { m with selected := 0, scrollOffset := 0 }
  else m

end PipelinesViewModel

/-! ## `internal/tui/resources_view.go` -/

/-- `resourcesState`. -/
inductive ResourcesState where
  | loading
  | list
  | checking
deriving DecidableEq, Inhabited

/-- `ResourcesViewModel`. -/
structure ResourcesViewModel where
  client : Option String
  resources : List Resource
  selected : Int
  state : ResourcesState
  err : Option String
  pipeline : String
  checkingResource : String
  checkResult : String
  checkError : Option String
deriving DecidableEq, Inhabited

/-- `NewResourcesViewModel`. -/
def NewResourcesViewModel : ResourcesViewModel :=
  { client := none, resources := [], selected := 0, state := .list,
    err := none, pipeline := "", checkingResource := "", checkResult := "",
    checkError := none }

/-- `ResourcesLoadedMsg`. -/
structure ResourcesLoadedMsg where
  resources : List Resource
  error : Option String
  pipeline : String
  isReload : Bool
deriving DecidableEq

/-- `ResourceCheckMsg`. -/
structure ResourceCheckMsg where
  resource : String
  output : String
  error : Option String
  success : Bool
deriving DecidableEq

/-- Commands the resources view can emit. -/
inductive ResourcesCmd where
  | none
  | loadResources (pipeline : String)
  | checkRequest (pipeline resource : String)
  | reloadResources (pipeline : String)
deriving DecidableEq

namespace ResourcesViewModel

/-- `ResourcesViewModel.Update` (key messages). -/
def Update (m : ResourcesViewModel) (key : String) :
    ResourcesViewModel × ResourcesCmd :=
  if key = "f5" then
    if m.client.isSome ∧ m.pipeline ≠ "" then
      ({ m with state := .loading }, .loadResources m.pipeline)
    else (m, .none)
  else if key = "up" ∨ key = "k" then
    if 0 < m.selected then
      ({ m with selected := m.selected - 1, checkResult := "", checkError := none }, .none)
    else (m, .none)
  else if key = "down" ∨ key = "j" then
    if m.selected < (m.resources.length : Int) - 1 then
      ({ m with selected := m.selected + 1, checkResult := "", checkError := none }, .none)
    else (m, .none)
  else if key = "enter" ∨ key = "c" then
    if m.resources ≠ [] then
      let resource := listAt m.resources m.selected
      (m, .checkRequest resource.pipelineName resource.name)
    else (m, .none)
  else if key = "x" ∨ key = "clear" then
    ({ m with checkResult := "", checkError := none, checkingResource := "" }, .none)
  else (m, .none)

/-- `HandleResourcesLoaded`. -/
def HandleResourcesLoaded (m : ResourcesViewModel) (msg : ResourcesLoadedMsg) :
    ResourcesViewModel :=
  let m := { m with resources := msg.resources, err := msg.error,
                    pipeline := msg.pipeline, state := .list }
  if ¬ msg.isReload then
    { m with selected := 0 }
  else if m.selected ≥ (m.resources.length : Int) then
    { m with selected := 0 }
  else m

/-- `HandleResourceCheck`. -/
def HandleResourceCheck (m : ResourcesViewModel) (msg : ResourceCheckMsg) :
    ResourcesViewModel × ResourcesCmd :=
  let m := { m with checkingResource := "" }
  match msg.error with
  | some e => ({ m with checkError := some e, checkResult := "" }, .none)
  | none =>
      if msg.success then
        ({ m with checkResult := msg.output, checkError := none },
         .reloadResources m.pipeline)
      else
        ({ m with checkResult := "",
                  checkError := some ("Resource check failed: " ++ msg.output) }, .none)

/-- `StartResourceCheck`. -/
def StartResourceCheck (m : ResourcesViewModel) (resourceName : String) :
    ResourcesViewModel :=
  { m with checkingResource := resourceName, checkResult := "", checkError := none }

end ResourcesViewModel

/-! ## `internal/tui/jobs_view.go` (the variant without search; the
search-enabled duplicate in the repository behaves identically on every
transition the claims touch) -/

/-- `JobsViewModel`. -/
structure JobsViewModel where
  client : Option String
  jobs : List Job
  selected : Int
  loading : Bool
  err : Option String
  pipeline : String
  triggeringJob : String
  triggerResult : String
  triggerError : Option String
deriving DecidableEq, Inhabited

/-- `NewJobsViewModel`. -/
def NewJobsViewModel : JobsViewModel :=
  { client := none, jobs := [], selected := 0, loading := false, err := none,
    pipeline := "", triggeringJob := "", triggerResult := "", triggerError := none }

/-- `JobsLoadedMsg`. -/
structure JobsLoadedMsg where
  jobs : List Job
  error : Option String
  pipeline : String
deriving DecidableEq

/-- `TriggerJobMsg`. -/
structure TriggerJobMsg where
  job : String
  output : String
  error : Option String
  success : Bool
deriving DecidableEq

/-- Commands the jobs view can emit. -/
inductive JobsCmd where
  | none
  | loadJobs (pipeline : String)
  | triggerRequest (pipeline job : String)
  | switchToBuilds (job pipeline : String)
deriving DecidableEq

namespace JobsViewModel

/-- `JobsViewModel.Update` (key messages). -/
def Update (m : JobsViewModel) (key : String) : JobsViewModel × JobsCmd :=
  if key = "f5" then
    if m.client.isSome ∧ m.pipeline ≠ "" then
      ({ m with loading := true }, .loadJobs m.pipeline)
    else (m, .none)
  else if key = "up" ∨ key = "k" then
    let m := if 0 < m.selected then { m with selected := m.selected - 1 } else m
    ({ m with triggerResult := "", triggerError := none }, .none)
  else if key = "down" ∨ key = "j" then
    let m :=
      if m.selected < (m.jobs.length : Int) - 1 then { m with selected := m.selected + 1 }
      else m
    ({ m with triggerResult := "", triggerError := none }, .none)
  else if key = "enter" ∨ key = "t" then
    if m.jobs ≠ [] then
      let job := listAt m.jobs m.selected
      (m, .triggerRequest job.pipelineName job.name)
    else (m, .none)
  else if key = "x" ∨ key = "clear" then
    ({ m with triggerResult := "", triggerError := none, triggeringJob := "" }, .none)
  else if key = "b" then
    if m.jobs ≠ [] then
      let job := listAt m.jobs m.selected
      (m, .switchToBuilds job.name job.pipelineName)
    else (m, .none)
  else (m, .none)

/-- `HandleJobsLoaded`. -/
def HandleJobsLoaded (m : JobsViewModel) (msg : JobsLoadedMsg) : JobsViewModel :=
  { m with jobs := msg.jobs, err := msg.error, pipeline := msg.pipeline,
           loading := false, selected := 0 }

/-- `HandleTriggerJob`. -/
def HandleTriggerJob (m : JobsViewModel) (msg : TriggerJobMsg) : JobsViewModel :=
  let m := { m with triggeringJob := "" }
  match msg.error with
  | some e => { m with triggerError := some e, triggerResult := "" }
  | none =>
      if msg.success then
        { m with triggerResult := msg.output, triggerError := none }
      else
        { m with triggerResult := "",
                 triggerError := some ("Job trigger failed: " ++ msg.output) }

/-- `StartJobTrigger`. -/
def StartJobTrigger (m : JobsViewModel) (jobName : String) : JobsViewModel :=
  { m with triggeringJob := jobName, triggerResult := "", triggerError := none }

end JobsViewModel

/-! ## builds view (`internal/tui`, builds file) -/

/-- `buildsState`. -/
inductive BuildsState where
  | loading
  | list
  | rerunning
deriving DecidableEq, Inhabited

/-- `BuildsViewModel`. -/
structure BuildsViewModel where
  client : Option String
  builds : List Build
  cursor : Int
  state : BuildsState
  err : Option String
  job : String
  pipeline : String
  rerunMessage : String
deriving DecidableEq, Inhabited

/-- `NewBuildsViewModel`. -/
def NewBuildsViewModel (client : Option String) : BuildsViewModel :=
  { client := client, builds := [], cursor := 0, state := .loading,
    err := none, job := "", pipeline := "", rerunMessage := "" }

/-- `BuildsLoadedMsg`. -/
structure BuildsLoadedMsg where
  builds : List Build
  error : Option String
  job : String
  pipeline : String
deriving DecidableEq

/-- Commands the builds view can emit. `tick5Clear` is the
5-second `ClearRerunMessageMsg` timer; `rerunAndTick` is the batch of the
rerun subprocess dispatch and the 100 ms animation tick; `clearAndReload` is
the batch of the 5-second clear timer and the 2-second delayed build-list
reload; `tick100` is the animation tick rescheduling itself. -/
inductive BuildsCmd where
  | none
  | switchToJobs
  | loadBuilds (pipeline job : String)
  | tick5Clear
  | rerunAndTick (pipeline job : String) (build : Int)
  | clearAndReload (pipeline job : String)
  | tick100
deriving DecidableEq

/-- The non-key messages the builds view handles. -/
inductive BuildsMsg where
  | key (s : String)
  | rerunResult (success : Bool) (output : String) (error : Option String) (build : Int)
  | rerunTick
  | clearRerunMessage
deriving DecidableEq

namespace BuildsViewModel

/-- `LoadBuilds` (pointer receiver: resets state, error, context and cursor
before dispatching the fetch). -/
def LoadBuilds (m : BuildsViewModel) (pipeline job : String) :
    BuildsViewModel × BuildsCmd :=
  ({ m with state := .loading, err := none, job := job, pipeline := pipeline,
            cursor := 0 },
   .loadBuilds pipeline job)

/-- `BuildsViewModel.Update`. -/
def Update (m : BuildsViewModel) (msg : BuildsMsg) :
    BuildsViewModel × BuildsCmd :=
  match msg with
  | .key key =>
      match m.state with
      | .loading =>
          if key = "q" ∨ key = "esc" then (m, .switchToJobs) else (m, .none)
      | .list =>
          if key = "f5" then
            if m.client.isSome ∧ m.pipeline ≠ "" ∧ m.job ≠ "" then
              LoadBuilds { m with state := .loading } m.pipeline m.job
            else (m, .none)
          else if key = "q" ∨ key = "esc" then (m, .switchToJobs)
          else if key = "up" ∨ key = "k" then
            if 0 < m.cursor then ({ m with cursor := m.cursor - 1 }, .none)
            else (m, .none)
          else if key = "down" ∨ key = "j" then
            if m.cursor < (m.builds.length : Int) - 1 then
              ({ m with cursor := m.cursor + 1 }, .none)
            else (m, .none)
          else if key = "enter" then
            if m.builds ≠ [] then
              let selected := listAt m.builds m.cursor
              match atoi selected.name with
              | Option.none =>
                  ({ m with rerunMessage := "Error: Invalid build number " ++ selected.name },
                   .tick5Clear)
              | some buildNum =>
                  ({ m with state := .rerunning,
                            rerunMessage :=
                              s!"Rerunning build {m.pipeline}/{m.job} #{buildNum}..." },
                   .rerunAndTick m.pipeline m.job buildNum)
            else (m, .none)
          else (m, .none)
      | .rerunning =>
          if key = "q" ∨ key = "esc" then (m, .switchToJobs) else (m, .none)
  | .rerunResult success output error build =>
      match error with
      | some e =>
          ({ m with state := .list, rerunMessage := "Error: " ++ e }, .tick5Clear)
      | Option.none =>
          if success then
            ({ m with state := .list,
                      rerunMessage :=
                        s!"✓ Successfully reran build {m.pipeline}/{m.job} #{build}: {output}" },
             .clearAndReload m.pipeline m.job)
          else
            ({ m with state := .list,
                      rerunMessage :=
                        s!"✗ Failed to rerun build {m.pipeline}/{m.job} #{build}: {output}" },
             .tick5Clear)
  | .rerunTick =>
      if m.state = .rerunning then (m, .tick100) else (m, .none)
  | .clearRerunMessage => ({ m with rerunMessage := "" }, .none)

/-- `HandleBuildsLoaded` (pointer receiver). -/
def HandleBuildsLoaded (m : BuildsViewModel) (msg : BuildsLoadedMsg) :
    BuildsViewModel :=
  { m with builds := msg.builds, err := msg.error, job := msg.job,
           pipeline := msg.pipeline, state := .list, cursor := 0 }

end BuildsViewModel

/-! ## targets view (`internal/tui`, the search-enabled variant) -/

/-- `TargetsViewModel` (the `configManager` pointer is passed explicitly to
the operations that use it). -/
structure TargetsViewModel where
  targets : List Target
  filteredTargets : List Target
  selected : Int
  showingDetail : Bool
  scrollOffset : Int
  maxVisible : Int
  searchQuery : String
  searchMode : Bool
deriving DecidableEq, Inhabited

/-- Commands the targets view can emit. -/
inductive TargetsCmd where
  | none
  | switchToAddTarget
  | switchToPipelines (target : String)
deriving DecidableEq

namespace TargetsViewModel

/-- Whether a target matches the (already lowered) query: case-insensitive
substring of its name, URL or team. -/
def matchesQuery (query : String) (t : Target) : Bool :=
  strContains (lowerStr t.name) query ||
  strContains (lowerStr t.GetURL) query ||
  strContains (lowerStr t.team) query

/-- `filterTargets` (pointer-receiver method). -/
def filterTargets (m : TargetsViewModel) : TargetsViewModel :=
  let filtered :=
    if m.searchQuery = "" then m.targets
    else m.targets.filter (matchesQuery (lowerStr m.searchQuery))
  let m := { m with filteredTargets := filtered }
  let m :=
    if m.selected ≥ (m.filteredTargets.length : Int) then
      { m with selected := 0, scrollOffset := 0 }
    else m
  if m.selected < 0 ∧ 0 < m.filteredTargets.length then
    { m with selected := 0, scrollOffset := 0 }
  else m

/-- `loadTargets`: rebuilds the target list from the config store (map
iteration modelled in list order), forcing each entry's name to its key,
then re-filters. -/
def loadTargets (store : ConfigStore) (m : TargetsViewModel) : TargetsViewModel :=
  filterTargets { m with targets := store.map (fun p => { p.2 with name := p.1 }) }

/-- `NewTargetsViewModel`. -/
def New (store : ConfigStore) : TargetsViewModel :=
  loadTargets store
    { targets := [], filteredTargets := [], selected := 0, showingDetail := false,
      scrollOffset := 0, maxVisible := 10, searchQuery := "", searchMode := false }

/-- `deleteTarget`. The Go method has a VALUE receiver: the store mutation
persists, but `loadTargets` and the selection/scroll adjustments act on a
local copy of the model that the caller discards. The second component is
that discarded copy. -/
def deleteTarget (m : TargetsViewModel) (store : ConfigStore) :
    ConfigStore × TargetsViewModel :=
  if m.filteredTargets = [] then (store, m)
  else
    let target := listAt m.filteredTargets m.selected
    let r := RemoveTarget store target.name
    if r.2 then
      let mc := loadTargets r.1 m
      let mc :=
        if mc.selected ≥ (mc.filteredTargets.length : Int) ∧ 0 < mc.filteredTargets.length then
          { mc with selected := (mc.filteredTargets.length : Int) - 1 }
        else mc
      let mc :=
        if 0 < mc.scrollOffset ∧ mc.selected < mc.scrollOffset then
          { mc with scrollOffset := max 0 (mc.scrollOffset - 1) }
        else mc
      (r.1, mc)
    else (r.1, m)

/-- `TargetsViewModel.Update` (key messages). The config store is threaded
explicitly; the only key that touches it is `d`. -/
def Update (m : TargetsViewModel) (store : ConfigStore) (key : String) :
    TargetsViewModel × ConfigStore × TargetsCmd :=
  if m.searchMode then
    if key = "enter" then ({ m with searchMode := false }, store, .none)
    else if key = "esc" then
      (filterTargets { m with searchMode := false, searchQuery := "" }, store, .none)
    else if key = "backspace" then
      if 0 < m.searchQuery.length then
        (filterTargets { m with searchQuery := strDropLast m.searchQuery }, store, .none)
      else (m, store, .none)
    else if key = "ctrl+u" then
      (filterTargets { m with searchQuery := "" }, store, .none)
    else if key.length = 1 then
      (filterTargets { m with searchQuery := m.searchQuery ++ key }, store, .none)
    else (m, store, .none)
  else
    if key = "up" ∨ key = "k" then
      if 0 < m.selected then
        let s := m.selected - 1
        let off := if s < m.scrollOffset then s else m.scrollOffset
        ({ m with selected := s, scrollOffset := off }, store, .none)
      else (m, store, .none)
    else if key = "down" ∨ key = "j" then
      if m.selected < (m.filteredTargets.length : Int) - 1 then
        let s := m.selected + 1
        let off :=
          if s ≥ m.scrollOffset + m.maxVisible then s - m.maxVisible + 1
          else m.scrollOffset
        ({ m with selected := s, scrollOffset := off }, store, .none)
      else (m, store, .none)
    else if key = "enter" then
      if m.filteredTargets ≠ [] then
        (m, store, .switchToPipelines (listAt m.filteredTargets m.selected).name)
      else (m, store, .none)
    else if key = "a" then (m, store, .switchToAddTarget)
    else if key = "d" then
      if m.filteredTargets ≠ [] then
        -- value receiver: the model copy `deleteTarget` adjusts is discarded
        (m, (deleteTarget m store).1, .none)
      else (m, store, .none)
    else if key = "i" then
      ({ m with showingDetail := ¬ m.showingDetail }, store, .none)
    else if key = "/" ∨ key = "s" then ({ m with searchMode := true }, store, .none)
    else if key = "F5" then (loadTargets store m, store, .none)
    else (m, store, .none)

end TargetsViewModel

/-! ## auth view (`internal/tui`) -/

/-- `AuthViewModel`. -/
structure AuthViewModel where
  target : Target
  client : Option String
  authenticating : Bool
  error : Option String
  success : Bool
deriving DecidableEq, Inhabited

/-- `NewAuthViewModel`. -/
def NewAuthViewModel : AuthViewModel :=
  { target := default, client := none, authenticating := false,
    error := none, success := false }

/-- `AuthViewModel.SetTarget`. -/
def AuthViewModel.SetTarget (m : AuthViewModel) (target : Target)
    (client : Option String) : AuthViewModel :=
  { m with target := target, client := client, authenticating := false,
           error := none, success := false }

/-! ## the router (`internal/tui`, `Model.Update`), restricted to the
background-operation result messages the claims concern -/

/-- `ViewType`. -/
inductive ViewType where
  | viewMain
  | viewTargets
  | viewPipelines
  | viewJobs
  | viewResources
  | viewBuilds
  | viewAddTarget
  | viewAuth
deriving DecidableEq, Inhabited

/-- The top-level `Model` (sub-views plus routing state; the config manager
is the explicit `store`). -/
structure Model where
  currentView : ViewType
  currentTarget : String
  store : ConfigStore
  client : Option String
  pipelinesView : PipelinesViewModel
  jobsView : JobsViewModel
  resourcesView : ResourcesViewModel
  buildsView : BuildsViewModel
  authView : AuthViewModel
deriving DecidableEq

/-- The result messages routed by `Model.Update`. -/
inductive RouterMsg where
  | pipelinesLoaded (msg : PipelinesLoadedMsg)
  | jobsLoaded (msg : JobsLoadedMsg)
  | resourcesLoaded (msg : ResourcesLoadedMsg)
  | buildsLoaded (msg : BuildsLoadedMsg)
  | triggerJob (msg : TriggerJobMsg)
  | buildRerunResult (success : Bool) (output : String) (error : Option String) (build : Int)
  | clearRerunMessage
deriving DecidableEq

/-- Commands `Model.Update` forwards from sub-views. -/
inductive RouterCmd where
  | none
  | builds (c : BuildsCmd)
deriving DecidableEq

namespace Model

/-- `Model.Update` on the background-operation result messages, line by line
from the Go `switch msg := msg.(type)` cases. Only the `PipelinesLoadedMsg`
case consults `IsAuthError`; the jobs, resources and builds loaded messages
are forwarded to their views unconditionally. -/
def Update (m : Model) (msg : RouterMsg) : Model × RouterCmd :=
  match msg with
  | .pipelinesLoaded msg =>
      if IsAuthError msg.error ∧ m.currentTarget ≠ "" then
        match GetTarget m.store m.currentTarget with
        | some target =>
            ({ m with authView := m.authView.SetTarget target m.client,
                      currentView := .viewAuth }, .none)
        | none =>
            ({ m with pipelinesView := m.pipelinesView.HandlePipelinesLoaded msg }, .none)
      else
        ({ m with pipelinesView := m.pipelinesView.HandlePipelinesLoaded msg }, .none)
  | .jobsLoaded msg =>
      ({ m with jobsView := m.jobsView.HandleJobsLoaded msg }, .none)
  | .resourcesLoaded msg =>
      ({ m with resourcesView := m.resourcesView.HandleResourcesLoaded msg }, .none)
  | .buildsLoaded msg =>
      ({ m with buildsView := m.buildsView.HandleBuildsLoaded msg }, .none)
  | .triggerJob msg =>
      ({ m with jobsView := m.jobsView.HandleTriggerJob msg }, .none)
  | .buildRerunResult success output error build =>
      let r := m.buildsView.Update (.rerunResult success output error build)
      ({ m with buildsView := r.1 }, .builds r.2)
  | .clearRerunMessage =>
      let r := m.buildsView.Update .clearRerunMessage
      ({ m with buildsView := r.1 }, .builds r.2)

end Model

/-! ## The selection-bounds invariant (spec §3 / §8) -/

/-- The spec's selection invariant for a list with `len` entries:
the cursor is non-negative and either rests at 0 (which doubles as "no
selection" when the list is empty) or points inside the list. -/
def invSel (selected : Int) (len : Nat) : Prop :=
  0 ≤ selected ∧ (selected = 0 ∨ selected < (len : Int))

instance (selected : Int) (len : Nat) : Decidable (invSel selected len) := by
  unfold invSel
  infer_instance

/-! ## Concrete fixtures used by witnesses and counterexamples -/

/-- A pipeline fixture. -/
def pipeA1 : Pipeline :=
  { id := 1, name := "a1", paused := false, public := false, archived := false,
    teamName := "main", lastUpdatedUnix := 0 }

/-- A pipeline fixture. -/
def pipeA2 : Pipeline := { pipeA1 with id := 2, name := "a2" }

/-- A pipeline fixture. -/
def pipeB : Pipeline := { pipeA1 with id := 3, name := "b" }

/-- A pipelines view amid a search for "a" with the second match selected. -/
def vmPipelinesSearch : PipelinesViewModel :=
  { client := none, pipelines := [pipeA1, pipeA2, pipeB],
    filteredPipelines := [pipeA1, pipeA2], selected := 1, state := .list,
    err := none, scrollOffset := 0, maxVisible := 10, searchQuery := "a",
    searchMode := true }

/-- Build `deploy/build #12`. -/
def build12 : Build :=
  { id := 12, teamName := "main", name := "12", status := "succeeded",
    jobName := "build", apiURL := "", startTimeUnix := 0, endTimeUnix := 0,
    pipelineID := 1, pipelineName := "deploy" }

/-- Build `deploy/build #11`. -/
def build11 : Build := { build12 with id := 11, name := "11", status := "failed" }

/-- Sub-build `deploy/build #11.1` produced by a rerun. -/
def build11r : Build := { build12 with id := 13, name := "11.1", status := "started" }

/-- A builds view with build `#11` selected (cursor 1). -/
def vmBuilds : BuildsViewModel :=
  { client := some "prod", builds := [build12, build11], cursor := 1,
    state := .list, err := none, job := "build", pipeline := "deploy",
    rerunMessage := "" }

/-- A builds view whose only (selected) build has the dotted name `11.1`. -/
def vmBuildsDotted : BuildsViewModel := { vmBuilds with builds := [build11r], cursor := 0 }

/-- The delayed post-rerun reload: the new sub-build `#11.1` now heads the
list and `#11` is still present. -/
def buildsReloadMsg : BuildsLoadedMsg :=
  { builds := [build11r, build11], error := none, job := "build", pipeline := "deploy" }

/-- A configured target. -/
def sampleTarget : Target :=
  { name := "prod", api := "https://ci.example.com", team := "main",
    token := none, insecure := false, caCert := "", clientCert := "",
    clientKey := "" }

/-- A config store holding `sampleTarget` under its name. -/
def sampleStore : ConfigStore := [("prod", sampleTarget)]

/-- A router model currently showing the Jobs view of target "prod". -/
def sampleModel : Model :=
  { currentView := .viewJobs, currentTarget := "prod", store := sampleStore,
    client := some "prod", pipelinesView := NewPipelinesViewModel,
    jobsView := NewJobsViewModel, resourcesView := NewResourcesViewModel,
    buildsView := NewBuildsViewModel (some "prod"), authView := NewAuthViewModel }

/-- A jobs list-load result carrying an authentication error. -/
def jobsAuthErrMsg : JobsLoadedMsg :=
  { jobs := [], error := some "Error: not authorized to access team", pipeline := "deploy" }

/-- A pipelines list-load result carrying an authentication error. -/
def pipelinesAuthErrMsg : PipelinesLoadedMsg :=
  { pipelines := [], error := some "Error: not authorized to access team" }

/-- A successful trigger result for `deploy/build`. -/
def triggerOkMsg : TriggerJobMsg :=
  { job := "deploy/build", output := "started deploy/build #15", error := none,
    success := true }

/-- A resource fixture. -/
def resA : Resource :=
  { name := "git-repo", pipelineName := "deploy", teamName := "main",
    type := "git", lastCheckedUnix := 0, version := [], metadata := [] }

/-- A resource fixture. -/
def resB : Resource := { resA with name := "s3-bucket", type := "s3" }

/-- A resources view with the second resource selected. -/
def vmResources : ResourcesViewModel :=
  { client := some "prod", resources := [resA, resB], selected := 1,
    state := .list, err := none, pipeline := "deploy", checkingResource := "",
    checkResult := "", checkError := none }

/-- A reload-after-operation result that still contains both resources. -/
def resourcesReloadMsg : ResourcesLoadedMsg :=
  { resources := [resA, resB], error := none, pipeline := "deploy", isReload := true }

/-- A targets view listing `sampleTarget`. -/
def vmTargets : TargetsViewModel :=
  { targets := [sampleTarget], filteredTargets := [sampleTarget], selected := 0,
    showingDetail := false, scrollOffset := 0, maxVisible := 10,
    searchQuery := "", searchMode := false }

end FlyBy

namespace FlyBy

/-! ## Correctness of the containment primitives -/

theorem charsPrefix_iff (n h : List Char) :
    charsPrefix n h = true ↔ ∃ t, h = n ++ t := by
  induction n generalizing h with
  | nil => simp [charsPrefix]
  | cons a as ih =>
      cases h with
      | nil => simp [charsPrefix]
      | cons b bs =>
          simp only [charsPrefix, Bool.and_eq_true, decide_eq_true_eq, ih,
            List.cons_append, List.cons.injEq]
          constructor
          · rintro ⟨rfl, t, rfl⟩
            exact ⟨t, rfl, rfl⟩
          · rintro ⟨t, rfl, rfl⟩
            exact ⟨rfl, t, rfl⟩

theorem charsContains_iff (n h : List Char) :
    charsContains n h = true ↔ ∃ p t, h = p ++ n ++ t := by
  induction h with
  | nil =>
      simp only [charsContains, charsPrefix_iff]
      constructor
      · rintro ⟨t, ht⟩
        exact ⟨[], t, by simpa using ht⟩
      · rintro ⟨p, t, ht⟩
        have hp : p = [] := by
          cases p with
          | nil => rfl
          | cons x xs => simp at ht
        subst hp
        exact ⟨t, by simpa using ht⟩
  | cons c cs ih =>
      simp only [charsContains, Bool.or_eq_true, charsPrefix_iff, ih]
      constructor
      · rintro (⟨t, ht⟩ | ⟨p, t, ht⟩)
        · exact ⟨[], t, by simpa using ht⟩
        · exact ⟨c :: p, t, by simp [ht]⟩
      · rintro ⟨p, t, ht⟩
        cases p with
        | nil => exact Or.inl ⟨t, by simpa using ht⟩
        | cons x xs =>
            simp only [List.cons_append, List.cons.injEq] at ht
            exact Or.inr ⟨xs, t, by simp [ht.1, ht.2]⟩

theorem strContains_lower_iff (s marker : String) :
    strContains (lowerStr s) marker = true ↔ ContainsCI s marker := by
  have hdata : (lowerStr s).toList = s.toList.map Char.toLower := rfl
  simp only [strContains, hdata, charsContains_iff, ContainsCI]
  constructor
  · rintro ⟨p, t, ht⟩
    rw [show p ++ marker.toList ++ t = p ++ (marker.toList ++ t) by simp] at ht
    obtain ⟨l₁, l₂, hs, hl₁, hl₂⟩ := List.map_eq_append_iff.mp ht
    obtain ⟨m₁, m₂, hl, hm₁, hm₂⟩ := List.map_eq_append_iff.mp hl₂
    refine ⟨l₁, m₁, m₂, ?_, hm₁⟩
    rw [hs, hl, List.append_assoc]
  · rintro ⟨p, mid, t, ht, hmid⟩
    refine ⟨p.map Char.toLower, t.map Char.toLower, ?_⟩
    rw [ht]
    simp [hmid]

/-- With an empty query, `filterPipelines` restores the full list and (when
the selection is in bounds of the full list) leaves the selection alone. -/
theorem filterPipelines_empty_query (m : PipelinesViewModel)
    (hq : m.searchQuery = "") (h0 : 0 ≤ m.selected)
    (hlt : m.selected < (m.pipelines.length : Int)) :
    m.filterPipelines = { m with filteredPipelines := m.pipelines } := by
  simp only [PipelinesViewModel.filterPipelines, hq, if_pos, String.reduceEq, if_true]
  split
  · rename_i hc
    exfalso
    try dsimp only at hc
    omega
  · split
    · rename_i hc
      exfalso
      try dsimp only at hc
      omega
    · rfl

/-- With an empty query, `filterTargets` restores the full list and (when
the selection is in bounds of the full list) leaves the selection alone. -/
theorem filterTargets_empty_query (m : TargetsViewModel)
    (hq : m.searchQuery = "") (h0 : 0 ≤ m.selected)
    (hlt : m.selected < (m.targets.length : Int)) :
    m.filterTargets = { m with filteredTargets := m.targets } := by
  simp only [TargetsViewModel.filterTargets, hq, if_pos, String.reduceEq, if_true]
  split
  · rename_i hc
    exfalso
    try dsimp only at hc
    omega
  · split
    · rename_i hc
      exfalso
      try dsimp only at hc
      omega
    · rfl

/-! ## Selection-invariant helper lemmas -/

theorem invSel_filterPipelines (m : PipelinesViewModel) (h0 : 0 ≤ m.selected) :
    invSel (m.filterPipelines).selected (m.filterPipelines).filteredPipelines.length := by
  unfold invSel PipelinesViewModel.filterPipelines
  dsimp only
  repeat' split
  all_goals try dsimp only at *
  all_goals omega

theorem invSel_filterTargets (m : TargetsViewModel) (h0 : 0 ≤ m.selected) :
    invSel (m.filterTargets).selected (m.filterTargets).filteredTargets.length := by
  unfold invSel TargetsViewModel.filterTargets
  dsimp only
  repeat' split
  all_goals try dsimp only at *
  all_goals omega

theorem invSel_pipelinesUpdate (m : PipelinesViewModel) (key : String)
    (h : invSel m.selected m.filteredPipelines.length) :
    invSel (m.Update key).1.selected (m.Update key).1.filteredPipelines.length := by
  have h0 : 0 ≤ m.selected := h.1
  unfold PipelinesViewModel.Update
  dsimp only
  repeat' split
  all_goals try exact h
  all_goals try exact invSel_filterPipelines _ h0
  all_goals (unfold invSel at h ⊢; try dsimp only at *; omega)

theorem invSel_handlePipelinesLoaded (m : PipelinesViewModel)
    (msg : PipelinesLoadedMsg) (h : invSel m.selected m.filteredPipelines.length) :
    invSel (m.HandlePipelinesLoaded msg).selected
      (m.HandlePipelinesLoaded msg).filteredPipelines.length := by
  unfold PipelinesViewModel.HandlePipelinesLoaded
  dsimp only
  split
  · exact invSel_filterPipelines _ (le_refl 0)
  · exact h

theorem invSel_targetsUpdate (m : TargetsViewModel) (store : ConfigStore)
    (key : String) (h : invSel m.selected m.filteredTargets.length) :
    invSel (m.Update store key).1.selected
      (m.Update store key).1.filteredTargets.length := by
  have h0 : 0 ≤ m.selected := h.1
  unfold TargetsViewModel.Update
  dsimp only
  repeat' split
  all_goals try exact h
  all_goals try exact invSel_filterTargets _ h0
  all_goals (unfold invSel at h ⊢; try dsimp only at *; omega)

theorem invSel_loadTargets (m : TargetsViewModel) (store : ConfigStore)
    (h0 : 0 ≤ m.selected) :
    invSel (TargetsViewModel.loadTargets store m).selected
      (TargetsViewModel.loadTargets store m).filteredTargets.length := by
  unfold TargetsViewModel.loadTargets
  exact invSel_filterTargets _ h0

theorem invSel_resourcesUpdate (m : ResourcesViewModel) (key : String)
    (h : invSel m.selected m.resources.length) :
    invSel (m.Update key).1.selected (m.Update key).1.resources.length := by
  unfold ResourcesViewModel.Update
  dsimp only
  repeat' split
  all_goals try exact h
  all_goals (unfold invSel at h ⊢; try dsimp only at *; omega)

theorem invSel_handleResourcesLoaded (m : ResourcesViewModel)
    (msg : ResourcesLoadedMsg) (h : invSel m.selected m.resources.length) :
    invSel (m.HandleResourcesLoaded msg).selected
      (m.HandleResourcesLoaded msg).resources.length := by
  unfold ResourcesViewModel.HandleResourcesLoaded
  dsimp only
  repeat' split
  all_goals (unfold invSel at h ⊢; try dsimp only at *; omega)

theorem invSel_jobsUpdate (m : JobsViewModel) (key : String)
    (h : invSel m.selected m.jobs.length) :
    invSel (m.Update key).1.selected (m.Update key).1.jobs.length := by
  unfold JobsViewModel.Update
  dsimp only
  repeat' split
  all_goals try exact h
  all_goals (unfold invSel at h ⊢; try dsimp only at *; omega)

theorem invSel_handleJobsLoaded (m : JobsViewModel) (msg : JobsLoadedMsg) :
    invSel (m.HandleJobsLoaded msg).selected
      (m.HandleJobsLoaded msg).jobs.length := by
  exact ⟨le_refl 0, Or.inl rfl⟩

theorem invSel_buildsUpdate (m : BuildsViewModel) (msg : BuildsMsg)
    (h : invSel m.cursor m.builds.length) :
    invSel (m.Update msg).1.cursor (m.Update msg).1.builds.length := by
  unfold BuildsViewModel.Update BuildsViewModel.LoadBuilds
  dsimp only
  repeat' split
  all_goals try exact h
  all_goals (unfold invSel at h ⊢; try dsimp only at *; omega)

theorem invSel_handleBuildsLoaded (m : BuildsViewModel) (msg : BuildsLoadedMsg) :
    invSel (m.HandleBuildsLoaded msg).cursor
      (m.HandleBuildsLoaded msg).builds.length := by
  exact ⟨le_refl 0, Or.inl rfl⟩

/-! ## Claim theorems -/

/-- C1: each mutating operation (trigger job, rerun build, check resource)
returns a tri-state result: if the fly tool cannot be started the result is
(false, trimmed output, the execution error); if it exits non-zero the result
is (false, trimmed diagnostic output, no error); if it exits zero, success
holds exactly when the trimmed combined output contains, case-insensitively,
the operation's marker word ("started" for trigger/rerun, "succeeded" for
check), and otherwise success is false with the output preserved and no
execution error. -/
theorem c1_mutating_operations_tri_state :
    (∀ out err, TriggerJobWithOutput (.startFailure out err) =
        ⟨false, out.trim, some err⟩) ∧
    (∀ out, TriggerJobWithOutput (.exitNonZero out) = ⟨false, out.trim, none⟩) ∧
    (∀ out, (TriggerJobWithOutput (.exitZero out)).output = out.trim ∧
        (TriggerJobWithOutput (.exitZero out)).executionError = none ∧
        ((TriggerJobWithOutput (.exitZero out)).success = true ↔
          ContainsCI out.trim "started")) ∧
    (∀ out err, RerunBuildWithOutput (.startFailure out err) =
        ⟨false, out.trim, some err⟩) ∧
    (∀ out, RerunBuildWithOutput (.exitNonZero out) = ⟨false, out.trim, none⟩) ∧
    (∀ out, (RerunBuildWithOutput (.exitZero out)).output = out.trim ∧
        (RerunBuildWithOutput (.exitZero out)).executionError = none ∧
        ((RerunBuildWithOutput (.exitZero out)).success = true ↔
          ContainsCI out.trim "started")) ∧
    (∀ out err, CheckResourceWithOutput (.startFailure out err) =
        ⟨false, out.trim, some err⟩) ∧
    (∀ out, CheckResourceWithOutput (.exitNonZero out) = ⟨false, out.trim, none⟩) ∧
    (∀ out, (CheckResourceWithOutput (.exitZero out)).output = out.trim ∧
        (CheckResourceWithOutput (.exitZero out)).executionError = none ∧
        ((CheckResourceWithOutput (.exitZero out)).success = true ↔
          ContainsCI out.trim "succeeded")) := by
  refine ⟨fun _ _ => rfl, fun _ => rfl, fun out => ⟨rfl, rfl, ?_⟩,
          fun _ _ => rfl, fun _ => rfl, fun out => ⟨rfl, rfl, ?_⟩,
          fun _ _ => rfl, fun _ => rfl, fun out => ⟨rfl, rfl, ?_⟩⟩ <;>
    exact strContains_lower_iff _ _

/-- C7: for the searchable views, the derived filtered list is the full
list filtered in place: it equals the full list when the query is empty, and
otherwise keeps exactly the entities one of whose searchable fields
(pipelines: name, team; targets: name, URL, team) case-insensitively
contains the lowercased query; in particular it is always a sublist (same
elements, same relative order) of the full list. -/
theorem c7_filter_characterization :
    (∀ m : PipelinesViewModel, (m.filterPipelines).filteredPipelines =
        if m.searchQuery = "" then m.pipelines
        else m.pipelines.filter (PipelinesViewModel.matchesQuery (lowerStr m.searchQuery))) ∧
    (∀ m : PipelinesViewModel, ((m.filterPipelines).filteredPipelines).Sublist m.pipelines) ∧
    (∀ q p, PipelinesViewModel.matchesQuery (lowerStr q) p = true ↔
        (ContainsCI p.name (lowerStr q) ∨ ContainsCI p.teamName (lowerStr q))) ∧
    (∀ m : TargetsViewModel, (m.filterTargets).filteredTargets =
        if m.searchQuery = "" then m.targets
        else m.targets.filter (TargetsViewModel.matchesQuery (lowerStr m.searchQuery))) ∧
    (∀ m : TargetsViewModel, ((m.filterTargets).filteredTargets).Sublist m.targets) ∧
    (∀ q t, TargetsViewModel.matchesQuery (lowerStr q) t = true ↔
        (ContainsCI t.name (lowerStr q) ∨ ContainsCI t.GetURL (lowerStr q) ∨
         ContainsCI t.team (lowerStr q))) := by
  have hp : ∀ m : PipelinesViewModel, (m.filterPipelines).filteredPipelines =
      if m.searchQuery = "" then m.pipelines
      else m.pipelines.filter (PipelinesViewModel.matchesQuery (lowerStr m.searchQuery)) := by
    intro m
    unfold PipelinesViewModel.filterPipelines
    dsimp only
    split <;> split <;> first | rfl | (split <;> rfl)
  have ht : ∀ m : TargetsViewModel, (m.filterTargets).filteredTargets =
      if m.searchQuery = "" then m.targets
      else m.targets.filter (TargetsViewModel.matchesQuery (lowerStr m.searchQuery)) := by
    intro m
    unfold TargetsViewModel.filterTargets
    dsimp only
    split <;> split <;> first | rfl | (split <;> rfl)
  refine ⟨hp, fun m => ?_, fun q p => ?_, ht, fun m => ?_, fun q t => ?_⟩
  · rw [hp m]
    split
    · exact List.Sublist.refl _
    · exact List.filter_sublist _
  · simp only [PipelinesViewModel.matchesQuery, Bool.or_eq_true, strContains_lower_iff]
  · rw [ht m]
    split
    · exact List.Sublist.refl _
    · exact List.filter_sublist _
  · simp only [TargetsViewModel.matchesQuery, Bool.or_eq_true, strContains_lower_iff]
    tauto

/-- C6: in every modelled list view, the selection invariant — the cursor is
non-negative and rests at 0 or inside the (filtered) list — is preserved by
every operation that mutates the list or the filter: key handling (load,
navigation, search-query edits), the list-loaded handlers, and re-filtering;
moreover re-filtering either keeps the selection in bounds unchanged or
clamps it to 0 (in particular whenever the filtered list shrinks to at or
below the old selection). -/
theorem c6_selected_index_invariant :
    (∀ (m : PipelinesViewModel) (key : String),
       invSel m.selected m.filteredPipelines.length →
       invSel (m.Update key).1.selected (m.Update key).1.filteredPipelines.length) ∧
    (∀ (m : PipelinesViewModel) (msg : PipelinesLoadedMsg),
       invSel m.selected m.filteredPipelines.length →
       invSel (m.HandlePipelinesLoaded msg).selected
         (m.HandlePipelinesLoaded msg).filteredPipelines.length) ∧
    (∀ m : PipelinesViewModel, 0 ≤ m.selected →
       invSel (m.filterPipelines).selected
         (m.filterPipelines).filteredPipelines.length) ∧
    (∀ m : PipelinesViewModel, 0 ≤ m.selected →
       ((m.filterPipelines).selected = m.selected ∧
          m.selected < ((m.filterPipelines).filteredPipelines.length : Int)) ∨
       (m.filterPipelines).selected = 0) ∧
    (∀ (m : ResourcesViewModel) (key : String),
       invSel m.selected m.resources.length →
       invSel (m.Update key).1.selected (m.Update key).1.resources.length) ∧
    (∀ (m : ResourcesViewModel) (msg : ResourcesLoadedMsg),
       invSel m.selected m.resources.length →
       invSel (m.HandleResourcesLoaded msg).selected
         (m.HandleResourcesLoaded msg).resources.length) ∧
    (∀ (m : JobsViewModel) (key : String),
       invSel m.selected m.jobs.length →
       invSel (m.Update key).1.selected (m.Update key).1.jobs.length) ∧
    (∀ (m : JobsViewModel) (msg : JobsLoadedMsg),
       invSel (m.HandleJobsLoaded msg).selected
         (m.HandleJobsLoaded msg).jobs.length) ∧
    (∀ (m : BuildsViewModel) (msg : BuildsMsg),
       invSel m.cursor m.builds.length →
       invSel (m.Update msg).1.cursor (m.Update msg).1.builds.length) ∧
    (∀ (m : BuildsViewModel) (msg : BuildsLoadedMsg),
       invSel (m.HandleBuildsLoaded msg).cursor
         (m.HandleBuildsLoaded msg).builds.length) ∧
    (∀ (m : TargetsViewModel) (store : ConfigStore) (key : String),
       invSel m.selected m.filteredTargets.length →
       invSel (m.Update store key).1.selected
         (m.Update store key).1.filteredTargets.length) ∧
    (∀ m : TargetsViewModel, 0 ≤ m.selected →
       invSel (m.filterTargets).selected
         (m.filterTargets).filteredTargets.length) ∧
    (∀ (m : TargetsViewModel) (store : ConfigStore), 0 ≤ m.selected →
       invSel (TargetsViewModel.loadTargets store m).selected
         (TargetsViewModel.loadTargets store m).filteredTargets.length) := by
  refine ⟨invSel_pipelinesUpdate, invSel_handlePipelinesLoaded,
    invSel_filterPipelines, ?_, invSel_resourcesUpdate,
    invSel_handleResourcesLoaded, invSel_jobsUpdate, invSel_handleJobsLoaded,
    invSel_buildsUpdate, invSel_handleBuildsLoaded, invSel_targetsUpdate,
    invSel_filterTargets, invSel_loadTargets⟩
  intro m h0
  unfold PipelinesViewModel.filterPipelines
  dsimp only
  repeat' split
  all_goals try dsimp only at *
  all_goals omega

/-- C5: `IsAuthError` is true exactly on a non-nil error whose message
case-insensitively contains one of "not authorized", "not logged in",
"unauthorized", "authentication"; it is false on nil and on every other
text, e.g. "resource not found". -/
theorem c5_IsAuthError_characterization :
    IsAuthError none = false ∧
    (∀ e, IsAuthError (some e) = true ↔
      (ContainsCI e "not authorized" ∨ ContainsCI e "not logged in" ∨
       ContainsCI e "unauthorized" ∨ ContainsCI e "authentication")) ∧
    IsAuthError (some "resource not found") = false := by
  refine ⟨rfl, fun e => ?_, by decide⟩
  simp only [IsAuthError, Bool.or_eq_true, strContains_lower_iff]
  tauto

/-- C2 counterexample: a jobs list-load result carrying an auth-matching
error, with a current target that is set and resolvable, is NOT intercepted:
the Router stays on the Jobs view (does not switch to Authentication) and the
raw error lands in the jobs view's state — refuting the claim that the
interception applies to every list-load result. -/
theorem c2_counterexample_jobs_load_not_intercepted :
    IsAuthError (some "Error: not authorized to access team") = true ∧
    sampleModel.currentTarget = "prod" ∧
    (GetTarget sampleModel.store "prod").isSome = true ∧
    sampleModel.currentView = .viewJobs ∧
    (sampleModel.Update (.jobsLoaded jobsAuthErrMsg)).1.currentView = .viewJobs ∧
    (sampleModel.Update (.jobsLoaded jobsAuthErrMsg)).1.currentView ≠ .viewAuth ∧
    (sampleModel.Update (.jobsLoaded jobsAuthErrMsg)).1.jobsView.err =
      some "Error: not authorized to access team" := by
  decide

/-- C2 amended: the authentication interception applies to the pipelines
list-load result only: when a `PipelinesLoadedMsg` carries an error matching
`IsAuthError` while the current target is set and resolvable from the config
store, the Router switches to the Authentication view pre-populated (via
`SetTarget`) with that target's details instead of delivering the error to
the pipelines view; jobs, resources and builds list-load results are
delivered to their views without this check. -/
theorem c2_pipelines_auth_interception (m : Model) (msg : PipelinesLoadedMsg)
    (t : Target) (hAuth : IsAuthError msg.error = true)
    (hTgt : m.currentTarget ≠ "") (hRes : GetTarget m.store m.currentTarget = some t) :
    m.Update (.pipelinesLoaded msg) =
      ({ m with authView := m.authView.SetTarget t m.client,
                currentView := .viewAuth }, .none) ∧
    (∀ jmsg : JobsLoadedMsg, m.Update (.jobsLoaded jmsg) =
      ({ m with jobsView := m.jobsView.HandleJobsLoaded jmsg }, .none)) ∧
    (∀ rmsg : ResourcesLoadedMsg, m.Update (.resourcesLoaded rmsg) =
      ({ m with resourcesView := m.resourcesView.HandleResourcesLoaded rmsg }, .none)) ∧
    (∀ bmsg : BuildsLoadedMsg, m.Update (.buildsLoaded bmsg) =
      ({ m with buildsView := m.buildsView.HandleBuildsLoaded bmsg }, .none)) := by
  refine ⟨?_, fun _ => rfl, fun _ => rfl, fun _ => rfl⟩
  simp [Model.Update, hAuth, hTgt, hRes]

/-- C3 counterexample: build `#11` is selected (cursor 1); the post-rerun
reload still contains `#11` (at an index-valid position), yet
`HandleBuildsLoaded` resets the cursor to 0, which now designates the
different build `#11.1` — refuting the claim that a reload after a
successful operation preserves the selection when the entity is still
present. -/
theorem c3_counterexample_builds_reload_resets_selection :
    vmBuilds.cursor = 1 ∧
    (listAt vmBuilds.builds 1).name = "11" ∧
    buildsReloadMsg.builds.contains build11 = true ∧
    (vmBuilds.HandleBuildsLoaded buildsReloadMsg).cursor = 0 ∧
    (listAt (vmBuilds.HandleBuildsLoaded buildsReloadMsg).builds 0).name = "11.1" := by
  decide

/-- C3 amended: only the Resources view distinguishes initial load from
reload-after-operation — an initial load (`IsReload = false`) resets the
selection to 0 and a reload preserves the selection exactly when it is still
in bounds (resetting to 0 otherwise). The builds, jobs and (error-free)
pipelines loaded handlers reset the selection to 0 unconditionally; in
particular the delayed build-list reload after a successful rerun moves the
selection to 0. -/
theorem c3_load_selection_policy :
    (∀ (m : ResourcesViewModel) (msg : ResourcesLoadedMsg), msg.isReload = false →
       (m.HandleResourcesLoaded msg).selected = 0) ∧
    (∀ (m : ResourcesViewModel) (msg : ResourcesLoadedMsg), msg.isReload = true →
       m.selected < (msg.resources.length : Int) →
       (m.HandleResourcesLoaded msg).selected = m.selected) ∧
    (∀ (m : ResourcesViewModel) (msg : ResourcesLoadedMsg), msg.isReload = true →
       m.selected ≥ (msg.resources.length : Int) →
       (m.HandleResourcesLoaded msg).selected = 0) ∧
    (∀ (m : BuildsViewModel) (msg : BuildsLoadedMsg),
       (m.HandleBuildsLoaded msg).cursor = 0) ∧
    (∀ (m : JobsViewModel) (msg : JobsLoadedMsg),
       (m.HandleJobsLoaded msg).selected = 0) ∧
    (∀ (m : PipelinesViewModel) (msg : PipelinesLoadedMsg), msg.error = none →
       (m.HandlePipelinesLoaded msg).selected = 0) := by
  refine ⟨?_, ?_, ?_, fun _ _ => rfl, fun _ _ => rfl, ?_⟩
  · intro m msg h
    simp [ResourcesViewModel.HandleResourcesLoaded, h]
  · intro m msg h hlt
    unfold ResourcesViewModel.HandleResourcesLoaded
    split
    · simp_all
    · dsimp only
      split
      · rename_i h2
        exfalso
        omega
      · rfl
  · intro m msg h hge
    unfold ResourcesViewModel.HandleResourcesLoaded
    split
    · simp_all
    · dsimp only
      split
      · rfl
      · rename_i h2
        exfalso
        omega
  · intro m msg h
    simp only [PipelinesViewModel.HandlePipelinesLoaded, h, if_pos]
    unfold PipelinesViewModel.filterPipelines
    dsimp only
    split <;> first | rfl | (split <;> rfl)

/-- C4: confirming a rerun on a selected build whose display name does not
parse as a plain integer is rejected locally — the invalid-build-number
message is set, the view stays in the list state (not rerunning), and the
only command emitted is the message-clear timer (no rerun dispatch); when
the name parses as the integer n, the rerun command's build argument is
exactly n. -/
theorem c4_rerun_build_number_parse (m : BuildsViewModel)
    (hstate : m.state = .list) (hne : m.builds ≠ []) :
    (atoi (listAt m.builds m.cursor).name = none →
       (m.Update (.key "enter")).1.state = .list ∧
       (m.Update (.key "enter")).1.rerunMessage =
         "Error: Invalid build number " ++ (listAt m.builds m.cursor).name ∧
       (m.Update (.key "enter")).2 = .tick5Clear) ∧
    (∀ n, atoi (listAt m.builds m.cursor).name = some n →
       (m.Update (.key "enter")).1.state = .rerunning ∧
       (m.Update (.key "enter")).2 = .rerunAndTick m.pipeline m.job n) := by
  constructor
  · intro h
    simp [BuildsViewModel.Update, hstate, hne, h]
  · intro n h
    simp [BuildsViewModel.Update, hstate, hne, h]

/-- C8 counterexample: a successful trigger result sets the Jobs view's
success banner (containing "#15"), but the Router returns no command at all
— no five-second clear message is scheduled for it, refuting the claim for
the Jobs view's trigger banner. -/
theorem c8_counterexample_jobs_banner_no_timer :
    (sampleModel.Update (.triggerJob triggerOkMsg)).2 = RouterCmd.none ∧
    (sampleModel.Update (.triggerJob triggerOkMsg)).1.jobsView.triggerResult =
      "started deploy/build #15" ∧
    strContains "started deploy/build #15" "#15" = true := by
  decide

/-- C8 amended: in the Builds view every rerun result banner schedules the
five-second `ClearRerunMessageMsg` timer (alone, or batched with the delayed
reload on success); processing the clear message empties the banner and
returns no command, and when no banner is set it leaves the state unchanged
(the clear is idempotent). The Jobs view's trigger banner is not timer
cleared — it is cleared only by navigation or the explicit clear key. -/
theorem c8_builds_banner_clear :
    (∀ (m : BuildsViewModel) (s : Bool) (o : String) (e : Option String) (b : Int),
       (m.Update (.rerunResult s o e b)).2 = .tick5Clear ∨
       (m.Update (.rerunResult s o e b)).2 = .clearAndReload m.pipeline m.job) ∧
    (∀ m : BuildsViewModel,
       (m.Update .clearRerunMessage).1 = { m with rerunMessage := "" } ∧
       (m.Update .clearRerunMessage).2 = .none) ∧
    (∀ m : BuildsViewModel, m.rerunMessage = "" →
       (m.Update .clearRerunMessage).1 = m) ∧
    (∀ (mo : Model) (msg : TriggerJobMsg),
       (mo.Update (.triggerJob msg)).2 = RouterCmd.none) := by
  refine ⟨?_, fun m => ⟨rfl, rfl⟩, ?_, fun _ _ => rfl⟩
  · intro m s o e b
    cases e with
    | none =>
        cases s with
        | true => exact Or.inr rfl
        | false => exact Or.inl rfl
    | some e => exact Or.inl rfl
  · intro m h
    have : ({ m with rerunMessage := "" } : BuildsViewModel) = m := by
      cases m
      simp_all
    simpa [BuildsViewModel.Update] using this

/-- C9 counterexample: cancelling search (`esc`) in the pipelines view amid
the query "a" with the second filtered entry selected restores the full
unfiltered list but leaves the selection at index 1 — refuting the claim
that cancel resets the selection to 0. -/
theorem c9_counterexample_cancel_keeps_selection :
    vmPipelinesSearch.searchMode = true ∧
    vmPipelinesSearch.selected = 1 ∧
    (vmPipelinesSearch.Update "esc").1.searchMode = false ∧
    (vmPipelinesSearch.Update "esc").1.searchQuery = "" ∧
    (vmPipelinesSearch.Update "esc").1.filteredPipelines = vmPipelinesSearch.pipelines ∧
    (vmPipelinesSearch.Update "esc").1.selected = 1 := by
  decide

/-- C9 amended: in the searchable views, exiting search via cancel (`esc`)
clears the query and restores the unfiltered full list while PRESERVING the
current selection (it is clamped to 0 only if it were out of bounds of the
full list, which cannot happen since the filtered list is a sublist);
exiting via confirm (`enter`) keeps the current filtered list and selection,
changing nothing but the search-mode flag. -/
theorem c9_search_exit_behavior :
    (∀ m : PipelinesViewModel, m.searchMode = true → 0 ≤ m.selected →
       m.selected < (m.pipelines.length : Int) →
       ((m.Update "esc").1 =
          { m with searchMode := false, searchQuery := "",
                   filteredPipelines := m.pipelines } ∧
        m.Update "enter" = ({ m with searchMode := false }, .none))) ∧
    (∀ (m : TargetsViewModel) (store : ConfigStore), m.searchMode = true →
       0 ≤ m.selected → m.selected < (m.targets.length : Int) →
       ((m.Update store "esc").1 =
          { m with searchMode := false, searchQuery := "",
                   filteredTargets := m.targets } ∧
        m.Update store "enter" = ({ m with searchMode := false }, store, .none))) := by
  constructor
  · intro m hm h0 hlt
    constructor
    · have hres : (m.Update "esc").1 =
          PipelinesViewModel.filterPipelines
            { m with searchMode := false, searchQuery := "" } := by
        simp [PipelinesViewModel.Update, hm]
      rw [hres, filterPipelines_empty_query] <;>
        first | rfl | exact h0 | exact hlt
    · simp [PipelinesViewModel.Update, hm]
  · intro m store hm h0 hlt
    constructor
    · have hres : (m.Update store "esc").1 =
          TargetsViewModel.filterTargets
            { m with searchMode := false, searchQuery := "" } := by
        simp [TargetsViewModel.Update, hm]
      rw [hres, filterTargets_empty_query] <;>
        first | rfl | exact h0 | exact hlt
    · simp [TargetsViewModel.Update, hm]

/-- C10: pressing `d` in the Targets view (normal mode, non-empty filtered
list, selected target present in the store) removes the selected target from
the persistent configuration store, but the returned view model is the
UNCHANGED input model — `deleteTarget` has a value receiver, so the deleted
target still appears in the displayed list and the selection and scroll
offset are untouched until the next reload. -/
theorem c10_delete_target_frame (m : TargetsViewModel) (store : ConfigStore)
    (hsm : m.searchMode = false) (hne : m.filteredTargets ≠ [])
    (hex : store.any (fun p => p.1 = (listAt m.filteredTargets m.selected).name) = true) :
    (m.Update store "d").1 = m ∧
    (m.Update store "d").2.1 =
      store.filter (fun p => ¬ p.1 = (listAt m.filteredTargets m.selected).name) ∧
    (m.Update store "d").2.2 = TargetsCmd.none ∧
    GetTarget (m.Update store "d").2.1 (listAt m.filteredTargets m.selected).name = none := by
  have hupd : m.Update store "d" =
      (m, (TargetsViewModel.deleteTarget m store).1, .none) := by
    simp [TargetsViewModel.Update, hsm, hne]
  have hdel1 : (TargetsViewModel.deleteTarget m store).1 =
      (RemoveTarget store (listAt m.filteredTargets m.selected).name).1 := by
    unfold TargetsViewModel.deleteTarget
    rw [if_neg hne]
    dsimp only
    split <;> rfl
  have hrem : (RemoveTarget store (listAt m.filteredTargets m.selected).name).1 =
      store.filter (fun p => ¬ p.1 = (listAt m.filteredTargets m.selected).name) := by
    unfold RemoveTarget
    rw [if_pos hex]
  have hfind : GetTarget
      (store.filter (fun p => ¬ p.1 = (listAt m.filteredTargets m.selected).name))
      (listAt m.filteredTargets m.selected).name = none := by
    unfold GetTarget
    have : (store.filter (fun p => ¬ p.1 = (listAt m.filteredTargets m.selected).name)).find?
        (fun p => p.1 = (listAt m.filteredTargets m.selected).name) = none := by
      rw [List.find?_eq_none]
      intro x hx
      have hmem := (List.mem_filter.mp hx).2
      simp only [decide_not, Bool.not_eq_true', decide_eq_false_iff_not] at hmem
      simpa using hmem
    rw [this]
    rfl
  refine ⟨by rw [hupd], ?_, by rw [hupd], ?_⟩
  · rw [hupd]
    dsimp only
    rw [hdel1, hrem]
  · rw [hupd]
    dsimp only
    rw [hdel1, hrem]
    exact hfind

/-! ## Witnesses -/

/-- C2 witness: the interception theorem applied to a concrete router model
and a concrete auth-error pipelines load. -/
theorem c2_pipelines_auth_interception_witness :
    sampleModel.Update (.pipelinesLoaded pipelinesAuthErrMsg) =
      ({ sampleModel with
          authView := sampleModel.authView.SetTarget sampleTarget sampleModel.client,
          currentView := .viewAuth }, .none) :=
  (c2_pipelines_auth_interception sampleModel pipelinesAuthErrMsg sampleTarget
    (by decide) (by decide) (by decide)).1

/-- C3 witness: a resources reload with the selection still in bounds
preserves it. -/
theorem c3_load_selection_policy_witness :
    (vmResources.HandleResourcesLoaded resourcesReloadMsg).selected =
      vmResources.selected :=
  c3_load_selection_policy.2.1 vmResources resourcesReloadMsg (by decide) (by decide)

/-- C4 witness: confirming a rerun on the dotted build name "11.1" is
rejected locally with the invalid-build-number message and only the clear
timer is scheduled. -/
theorem c4_rerun_build_number_parse_witness :
    (vmBuildsDotted.Update (.key "enter")).1.state = .list ∧
    (vmBuildsDotted.Update (.key "enter")).1.rerunMessage =
      "Error: Invalid build number 11.1" ∧
    (vmBuildsDotted.Update (.key "enter")).2 = .tick5Clear := by
  have h := (c4_rerun_build_number_parse vmBuildsDotted (by decide) (by decide)).1
    (by decide)
  refine ⟨h.1, ?_, h.2.2⟩
  rw [h.2.1]
  decide

/-- C6 witness: the invariant after a `down` key on a concrete pipelines
view. -/
theorem c6_selected_index_invariant_witness :
    invSel (vmPipelinesSearch.Update "down").1.selected
      (vmPipelinesSearch.Update "down").1.filteredPipelines.length :=
  c6_selected_index_invariant.1 vmPipelinesSearch "down" (by decide)

/-- C8 witness: processing the clear message with no banner set leaves a
concrete builds view unchanged. -/
theorem c8_builds_banner_clear_witness :
    (vmBuilds.Update .clearRerunMessage).1 = vmBuilds :=
  c8_builds_banner_clear.2.2.1 vmBuilds rfl

/-- C9 witness: the amended search-exit behavior at a concrete pipelines
view. -/
theorem c9_search_exit_behavior_witness :
    (vmPipelinesSearch.Update "esc").1 =
      { vmPipelinesSearch with searchMode := false, searchQuery := "",
                               filteredPipelines := vmPipelinesSearch.pipelines } ∧
    vmPipelinesSearch.Update "enter" =
      ({ vmPipelinesSearch with searchMode := false }, .none) :=
  c9_search_exit_behavior.1 vmPipelinesSearch (by decide) (by decide) (by decide)

/-- C10 witness: deleting the selected target of a concrete targets view
removes it from the store while the returned view model is unchanged. -/
theorem c10_delete_target_frame_witness :
    (vmTargets.Update sampleStore "d").1 = vmTargets ∧
    (vmTargets.Update sampleStore "d").2.1 =
      sampleStore.filter
        (fun p => ¬ p.1 = (listAt vmTargets.filteredTargets vmTargets.selected).name) ∧
    (vmTargets.Update sampleStore "d").2.2 = TargetsCmd.none ∧
    GetTarget (vmTargets.Update sampleStore "d").2.1
      (listAt vmTargets.filteredTargets vmTargets.selected).name = none :=
  c10_delete_target_frame vmTargets sampleStore (by decide) (by decide) (by decide)

end FlyBy
